import Mathlib

/-!
Shallow embedding of `src/cluster/denstream.py` (`DenStreamWithDBSCAN`), a
scikit-learn-style facade around the MOA `WithDBSCAN` streaming clusterer.
The facade code — the constructor, `partial_fit`, `fit`, `fit_predict`,
`labels_`, `get_clustering_result` and the configuration properties — is
translated from the source.  The clustering engine itself lives in the
external MOA Java library and is not under `src/`; definitions whose doc
comments start with "Modelled from the spec" model those missing parts from
the specification's words (sections 3, 4.1, 4.2, 6, 7).
-/

namespace Moa

/-- Data point: an ordered sequence of real-valued coordinates (spec section 3);
numeric values are modelled as rationals. -/
abbrev Point := List ℚ

/-- Error kinds of the engine (spec section 7). -/
inductive MoaError where
  | configurationError
  | dimensionMismatch
  | notInitialized
deriving DecidableEq

/-- Remote calls the facade issues to the foreign clusterer object, recorded
in issue order: `train p` is `trainOnInstanceImpl` on the instance built from
point `p`; `recluster` is `getClusteringResult`, the offline reclustering
pass. -/
inductive EngineCall where
  | train (p : Point)
  | recluster
deriving DecidableEq

/-- Configuration parameters of `DenStreamWithDBSCAN.__init__` (the source's
spelling `number_intialization_points` is kept). -/
structure Config where
  dimensions : ℕ
  window_range : ℤ
  epsilon : ℚ
  beta : ℚ
  mu : ℚ
  number_intialization_points : ℤ
  offline_multiplier : ℚ
  lambda_ : ℚ
  processing_speed : ℤ
deriving DecidableEq

/-- Modelled from the spec: parameter validity (section 6: `dimensions` > 0,
`epsilon` > 0, `beta` in (0,1], `mu` > 0, initialization count ≥ 0,
`offline_multiplier` > 0, `lambda_` > 0, `processing_speed` > 0).  The source
constructor forwards each value to the foreign clusterer's option objects;
their range validation is inside the MOA library, not under `src/`. -/
def Config.valid (c : Config) : Bool :=
  decide (0 < c.dimensions) && decide (0 < c.epsilon) &&
  decide (0 < c.beta) && decide (c.beta ≤ 1) && decide (0 < c.mu) &&
  decide (0 ≤ c.number_intialization_points) &&
  decide (0 < c.offline_multiplier) &&
  decide (0 < c.lambda_) && decide (0 < c.processing_speed)

/-- Modelled from the spec: the foreign `WithDBSCAN` clusterer's internal state
is not in this repository (section 1: the algorithm lives entirely inside the
external MOA library; section 9: its exact formulas are not visible here).
Per the spec's determinism property (section 8) every engine observable —
micro-cluster store, weights, counts, offline labels — is a function of the
configured options and the ordered absorbed-point history, so the state is
represented by exactly those. -/
structure ClustererState where
  config : Config
  absorbed : List Point
deriving DecidableEq

/-- Modelled from the spec: `trainOnInstanceImpl` absorbs one point
(section 4.1); absorption extends the engine's history by that point, in
arrival order. -/
def trainOnInstanceImpl (c : ClustererState) (p : Point) : ClustererState :=
  { c with absorbed := c.absorbed ++ [p] }

/-- Squared Euclidean distance between two points. -/
def sqDist (p q : Point) : ℚ :=
  (List.zipWith (fun a b => (a - b) * (a - b)) p q).sum

/-- One density-reachability expansion step: all stored points within the
given squared radius of some member of the current component. -/
def epsStep (eps2 : ℚ) (pts : List Point) (comp : List Point) : List Point :=
  pts.filter (fun q => comp.any (fun p => decide (sqDist p q ≤ eps2)))

/-- Iterated expansion of a component (density-reachability closure, with
fuel bounding the chain length). -/
def expandComponent (eps2 : ℚ) (pts : List Point) : ℕ → List Point → List Point
  | 0, comp => comp
  | n + 1, comp => expandComponent eps2 pts n (epsStep eps2 pts comp)

/-- Modelled from the spec: the density-reachable group of a point in the
offline pass (section 4.2), with neighborhood radius `epsilon *
offline_multiplier`. -/
def component (cfg : Config) (pts : List Point) (p : Point) : List Point :=
  let r := cfg.epsilon * cfg.offline_multiplier
  expandComponent (r * r) pts pts.length [p]

/-- Modelled from the spec: the offline label of one point (section 4.2):
its cluster id is the position of the first stored point belonging to its
density-reachable group; a group below the density threshold derived from
`mu` is noise, labelled -1. -/
def clusterLabel (cfg : Config) (pts : List Point) (p : Point) : ℤ :=
  let comp := component cfg pts p
  if cfg.mu ≤ (comp.length : ℚ) then
    ((pts.findIdx (fun q => comp.any (fun q2 => decide (q2 = q)))) : ℤ)
  else -1

/-- Modelled from the spec: the foreign `getClusteringResult` runs the
offline pass over the current state (section 4.2); it fails with
`notInitialized` when zero points have been absorbed (section 7) and
otherwise yields the read-only snapshot the labels are computed from — the
pass never mutates the store (section 3). -/
def ClustererState.getClusteringResult (c : ClustererState) :
    Except MoaError ClustererState :=
  if c.absorbed = [] then .error .notInitialized else .ok c

/-- Modelled from the spec: `classValues` of the foreign clustering maps each
stored instance, keyed by its point index in storage order, to the cluster id
of its group (section 4.2: the final per-original-point label is the label of
the micro-cluster that owns it). -/
def classValues (clust : ClustererState) (instances : List Point) :
    List (ℕ × ℤ) :=
  (List.range instances.length).zip
    (instances.map (fun p => clusterLabel clust.config clust.absorbed p))

/-- State of a `DenStreamWithDBSCAN` facade object: the configuration fields
stored by `__init__`, the foreign clusterer, the instance list, and — as
instrumentation of the remote boundary — the history of calls issued to the
clusterer. -/
structure DenStreamWithDBSCAN where
  _dimensions : ℕ
  _window_range : ℤ
  _epsilon : ℚ
  _beta : ℚ
  _mu : ℚ
  _number_intialization_points : ℤ
  _offline_multiplier : ℚ
  _lambda_ : ℚ
  _processing_speed : ℤ
  _clusterer : ClustererState
  _instances : List Point
  calls : List EngineCall
deriving DecidableEq

/-- Constructor of `DenStreamWithDBSCAN`: stores the nine parameters, builds
the clusterer whose options receive the stored values, and starts with an
empty instance list.  Modelled from the spec: `configurationError` on an
invalid parameter, raised at construction (section 7) — in the source the
range checks live in the foreign option objects the values are forwarded
to. -/
def mkDenStreamWithDBSCAN (cfg : Config) : Except MoaError DenStreamWithDBSCAN :=
  if cfg.valid then
    .ok { _dimensions := cfg.dimensions, _window_range := cfg.window_range,
          _epsilon := cfg.epsilon, _beta := cfg.beta, _mu := cfg.mu,
          _number_intialization_points := cfg.number_intialization_points,
          _offline_multiplier := cfg.offline_multiplier,
          _lambda_ := cfg.lambda_, _processing_speed := cfg.processing_speed,
          _clusterer := { config := cfg, absorbed := [] },
          _instances := [], calls := [] }
  else .error .configurationError

namespace DenStreamWithDBSCAN

/-- Property `window_range`. -/
def window_range (s : DenStreamWithDBSCAN) : ℤ := s._window_range

/-- Property `epsilon`. -/
def epsilon (s : DenStreamWithDBSCAN) : ℚ := s._epsilon

/-- Property `beta`. -/
def beta (s : DenStreamWithDBSCAN) : ℚ := s._beta

/-- Property `mu`. -/
def mu (s : DenStreamWithDBSCAN) : ℚ := s._mu

/-- Property `number_intialization_points`. -/
def number_intialization_points (s : DenStreamWithDBSCAN) : ℤ :=
  s._number_intialization_points

/-- Property `offline_multiplier`. -/
def offline_multiplier (s : DenStreamWithDBSCAN) : ℚ := s._offline_multiplier

/-- Property `lambda_`. -/
def lambda_ (s : DenStreamWithDBSCAN) : ℚ := s._lambda_

/-- Property `processing_speed`. -/
def processing_speed (s : DenStreamWithDBSCAN) : ℤ := s._processing_speed

/-- Method `_create_instance`: builds a `DenseInstance` of the configured
dimensionality from a vector; the instance collapses to its numeric vector
(spec section 9).  Modelled from the spec: the `dimensionMismatch` failure
when the vector's length differs from the configured dimensionality
(section 7) — in the source the per-coordinate bound check sits inside the
foreign `DenseInstance.setValue`. -/
def _create_instance (s : DenStreamWithDBSCAN) (vector : Point) :
    Except MoaError Point :=
  if vector.length = s._dimensions then .ok vector
  else .error .dimensionMismatch

/-- Method `partial_fit`: for each vector of `X` in order, create the
instance, train the clusterer on it, and append it to the instance list.  A
failing point stops the loop there; the state changes already made for
earlier points persist (the error is returned alongside the state at the
failure). -/
def partial_fit :
    DenStreamWithDBSCAN → List Point → DenStreamWithDBSCAN × Option MoaError
  | s, [] => (s, none)
  | s, vector :: rest =>
    match s._create_instance vector with
    | .error e => (s, some e)
    | .ok inst =>
        partial_fit
          { s with _clusterer := trainOnInstanceImpl s._clusterer inst,
                   _instances := s._instances ++ [inst],
                   calls := s.calls ++ [EngineCall.train inst] } rest

/-- Method `fit`: calls `partial_fit` on the batch. -/
def fit (s : DenStreamWithDBSCAN) (X : List Point) :
    DenStreamWithDBSCAN × Option MoaError :=
  partial_fit s X

/-- Method `get_clustering_result`: issues `getClusteringResult` on the
clusterer and maps the resulting clustering onto the stored instances,
giving the dictionary from point index to cluster index; the returned state
records the issued reclustering call. -/
def get_clustering_result (s : DenStreamWithDBSCAN) :
    Except MoaError (List (ℕ × ℤ)) × DenStreamWithDBSCAN :=
  let s' := { s with calls := s.calls ++ [EngineCall.recluster] }
  match s._clusterer.getClusteringResult with
  | .error e => (.error e, s')
  | .ok clust => (.ok (classValues clust s._instances), s')

/-- Property `labels_`: the values of `get_clustering_result`, in key
order. -/
def labels_ (s : DenStreamWithDBSCAN) :
    Except MoaError (List ℤ) × DenStreamWithDBSCAN :=
  match s.get_clustering_result with
  | (.error e, s') => (.error e, s')
  | (.ok m, s') => (.ok (m.map Prod.snd), s')

/-- Method `fit_predict`: `fit` on the batch, then `labels_`; an error raised
by `fit` propagates with the partially updated state. -/
def fit_predict (s : DenStreamWithDBSCAN) (X : List Point) :
    Except MoaError (List ℤ) × DenStreamWithDBSCAN :=
  match s.fit X with
  | (s1, some e) => (.error e, s1)
  | (s1, none) => s1.labels_

/-- Configuration read back through the facade: the eight property getters of
the source, plus the stored `_dimensions` field (the source defines no
`dimensions` property, so that field is read directly). -/
def configOf (s : DenStreamWithDBSCAN) : Config :=
  { dimensions := s._dimensions, window_range := s.window_range,
    epsilon := s.epsilon, beta := s.beta, mu := s.mu,
    number_intialization_points := s.number_intialization_points,
    offline_multiplier := s.offline_multiplier, lambda_ := s.lambda_,
    processing_speed := s.processing_speed }

end DenStreamWithDBSCAN

/-- A whole-lifetime run: a sequence of `partial_fit` calls, one per batch,
from a given starting state (only the states are composed; the per-call
error results are those of `partial_fit`). -/
def runBatches (s : DenStreamWithDBSCAN) (batches : List (List Point)) :
    DenStreamWithDBSCAN :=
  batches.foldl (fun t B => (t.partial_fit B).1) s

/-- Sample configuration used to instantiate theorems with hypotheses. -/
def sampleCfg : Config :=
  { dimensions := 2, window_range := 1000, epsilon := 1, beta := 1,
    mu := 1, number_intialization_points := 0, offline_multiplier := 2,
    lambda_ := 1, processing_speed := 100 }

/-- The fresh facade state the constructor produces from `sampleCfg`. -/
def sampleEngine : DenStreamWithDBSCAN :=
  { _dimensions := 2, _window_range := 1000, _epsilon := 1, _beta := 1,
    _mu := 1, _number_intialization_points := 0, _offline_multiplier := 2,
    _lambda_ := 1, _processing_speed := 100,
    _clusterer := { config := sampleCfg, absorbed := [] },
    _instances := [], calls := [] }

theorem mk_sampleEngine : mkDenStreamWithDBSCAN sampleCfg = .ok sampleEngine := by
  have h : sampleCfg.valid = true := by decide
  rw [mkDenStreamWithDBSCAN, if_pos h]
  rfl

open DenStreamWithDBSCAN in
/-- Unfolding of `partial_fit` on a point of the configured dimensionality:
the point is trained on and recorded, then the rest of the batch runs. -/
theorem partial_fit_cons_ok (s : DenStreamWithDBSCAN) (v : Point)
    (rest : List Point) (hv : v.length = s._dimensions) :
    s.partial_fit (v :: rest) =
      ({ s with _clusterer := trainOnInstanceImpl s._clusterer v,
                _instances := s._instances ++ [v],
                calls := s.calls ++ [EngineCall.train v] } :
        DenStreamWithDBSCAN).partial_fit rest := by
  have h1 : s._create_instance v = Except.ok v := by
    rw [_create_instance, if_pos hv]
  rw [partial_fit, h1]

open DenStreamWithDBSCAN in
/-- Unfolding of `partial_fit` on a point of the wrong dimensionality: the
loop stops with `dimensionMismatch` in the current state. -/
theorem partial_fit_cons_err (s : DenStreamWithDBSCAN) (v : Point)
    (rest : List Point) (hv : v.length ≠ s._dimensions) :
    s.partial_fit (v :: rest) = (s, some MoaError.dimensionMismatch) := by
  have h1 : s._create_instance v = Except.error MoaError.dimensionMismatch := by
    rw [_create_instance, if_neg hv]
  rw [partial_fit, h1]

open DenStreamWithDBSCAN in
/-- `partial_fit` never changes the stored `_dimensions` field. -/
theorem partial_fit_dimensions (X : List Point) (s : DenStreamWithDBSCAN) :
    (s.partial_fit X).1._dimensions = s._dimensions := by
  induction X generalizing s with
  | nil => rfl
  | cons v rest ih =>
      by_cases hv : v.length = s._dimensions
      · rw [partial_fit_cons_ok s v rest hv]
        exact ih _
      · rw [partial_fit_cons_err s v rest hv]

open DenStreamWithDBSCAN in
/-- Running `partial_fit` on a batch of points that all have the configured
dimensionality succeeds and appends the batch, in order, to the engine's
absorbed history, to the instance list, and (as `train` calls) to the call
history. -/
theorem partial_fit_all_valid (X : List Point) (s : DenStreamWithDBSCAN)
    (h : ∀ p ∈ X, p.length = s._dimensions) :
    s.partial_fit X =
      ({ s with
          _clusterer :=
            { s._clusterer with absorbed := s._clusterer.absorbed ++ X },
          _instances := s._instances ++ X,
          calls := s.calls ++ X.map EngineCall.train }, none) := by
  induction X generalizing s with
  | nil => simp [partial_fit]
  | cons v rest ih =>
      have hv : v.length = s._dimensions := h v (List.mem_cons_self v rest)
      rw [partial_fit_cons_ok s v rest hv]
      have hrec :=
        ih ({ s with _clusterer := trainOnInstanceImpl s._clusterer v,
                     _instances := s._instances ++ [v],
                     calls := s.calls ++ [EngineCall.train v] })
          (fun p hp => h p (List.mem_cons_of_mem v hp))
      rw [hrec]
      simp [trainOnInstanceImpl, List.append_assoc]

open DenStreamWithDBSCAN in
/-- Running `partial_fit` on a batch whose first invalid point is `p` stops
exactly at `p` with a `dimensionMismatch` error, in the state reached after
the points before `p`. -/
theorem partial_fit_first_invalid (pre : List Point) (p : Point)
    (post : List Point) (s : DenStreamWithDBSCAN)
    (hpre : ∀ q ∈ pre, q.length = s._dimensions)
    (hp : p.length ≠ s._dimensions) :
    s.partial_fit (pre ++ p :: post) =
      ((s.partial_fit pre).1, some MoaError.dimensionMismatch) := by
  induction pre generalizing s with
  | nil =>
      have h1 : (s.partial_fit []).1 = s := rfl
      rw [List.nil_append, h1, partial_fit_cons_err s p post hp]
  | cons q pre' ih =>
      have hq : q.length = s._dimensions := hpre q (List.mem_cons_self q pre')
      rw [List.cons_append, partial_fit_cons_ok s q (pre' ++ p :: post) hq,
        partial_fit_cons_ok s q pre' hq]
      exact ih _ (fun r hr => hpre r (List.mem_cons_of_mem q hr)) hp

open DenStreamWithDBSCAN in
/-- State component of `partial_fit_all_valid`. -/
theorem partial_fit_all_valid_fst (X : List Point) (s : DenStreamWithDBSCAN)
    (h : ∀ p ∈ X, p.length = s._dimensions) :
    (s.partial_fit X).1 =
      { s with
          _clusterer :=
            { s._clusterer with absorbed := s._clusterer.absorbed ++ X },
          _instances := s._instances ++ X,
          calls := s.calls ++ X.map EngineCall.train } := by
  rw [partial_fit_all_valid X s h]

open DenStreamWithDBSCAN in
/-- On a state with an empty absorbed history, `get_clustering_result` fails
with `notInitialized`, after issuing the reclustering call. -/
theorem get_clustering_result_empty (s : DenStreamWithDBSCAN)
    (h : s._clusterer.absorbed = []) :
    s.get_clustering_result =
      (.error .notInitialized,
       { s with calls := s.calls ++ [EngineCall.recluster] }) := by
  have h1 : s._clusterer.getClusteringResult = .error .notInitialized := by
    rw [ClustererState.getClusteringResult, if_pos h]
  rw [get_clustering_result, h1]

open DenStreamWithDBSCAN in
/-- On a state with a nonempty absorbed history, `get_clustering_result`
returns the offline label mapping of the stored instances, after issuing the
reclustering call. -/
theorem get_clustering_result_nonempty (s : DenStreamWithDBSCAN)
    (h : ¬ s._clusterer.absorbed = []) :
    s.get_clustering_result =
      (.ok (classValues s._clusterer s._instances),
       { s with calls := s.calls ++ [EngineCall.recluster] }) := by
  have h1 : s._clusterer.getClusteringResult = .ok s._clusterer := by
    rw [ClustererState.getClusteringResult, if_neg h]
  rw [get_clustering_result, h1]

open DenStreamWithDBSCAN in
/-- `labels_` on a state with an empty absorbed history. -/
theorem labels_empty (s : DenStreamWithDBSCAN)
    (h : s._clusterer.absorbed = []) :
    s.labels_ =
      (.error .notInitialized,
       { s with calls := s.calls ++ [EngineCall.recluster] }) := by
  rw [labels_, get_clustering_result_empty s h]

open DenStreamWithDBSCAN in
/-- `labels_` on a state with a nonempty absorbed history. -/
theorem labels_nonempty (s : DenStreamWithDBSCAN)
    (h : ¬ s._clusterer.absorbed = []) :
    s.labels_ =
      (.ok ((classValues s._clusterer s._instances).map Prod.snd),
       { s with calls := s.calls ++ [EngineCall.recluster] }) := by
  rw [labels_, get_clustering_result_nonempty s h]

open DenStreamWithDBSCAN in
/-- Inversion of a successful construction: the fresh engine reads back the
given configuration and has absorbed nothing, stored nothing, and issued no
engine calls. -/
theorem mk_ok_inv (cfg : Config) (e : DenStreamWithDBSCAN)
    (h : mkDenStreamWithDBSCAN cfg = .ok e) :
    e.configOf = cfg ∧ e._dimensions = cfg.dimensions ∧
    e._clusterer.absorbed = [] ∧ e._instances = [] ∧ e.calls = [] := by
  rw [mkDenStreamWithDBSCAN] at h
  split at h
  · injection h with h1
    subst h1
    exact ⟨rfl, rfl, rfl, rfl, rfl⟩
  · exact Except.noConfusion h

/-- The keys of `classValues` are exactly the point indices, and there is
one entry per stored instance. -/
theorem classValues_keys (clust : ClustererState) (instances : List Point) :
    (classValues clust instances).map Prod.fst = List.range instances.length ∧
    (classValues clust instances).length = instances.length := by
  constructor
  · rw [classValues]
    exact List.map_fst_zip _ _ (by simp)
  · rw [classValues]
    simp

open DenStreamWithDBSCAN in
/-- `partial_fit` never changes the configuration read back through the
facade. -/
theorem partial_fit_configOf (X : List Point) (s : DenStreamWithDBSCAN) :
    (s.partial_fit X).1.configOf = s.configOf := by
  induction X generalizing s with
  | nil => rfl
  | cons v rest ih =>
      by_cases hv : v.length = s._dimensions
      · rw [partial_fit_cons_ok s v rest hv]
        exact ih _
      · rw [partial_fit_cons_err s v rest hv]

open DenStreamWithDBSCAN in
/-- `labels_` never changes the configuration read back through the
facade. -/
theorem labels_configOf (s : DenStreamWithDBSCAN) :
    (s.labels_).2.configOf = s.configOf := by
  by_cases h : s._clusterer.absorbed = []
  · rw [labels_empty s h]
    rfl
  · rw [labels_nonempty s h]
    rfl

open DenStreamWithDBSCAN in
/-- `get_clustering_result` never changes the configuration read back
through the facade. -/
theorem get_clustering_result_configOf (s : DenStreamWithDBSCAN) :
    (s.get_clustering_result).2.configOf = s.configOf := by
  by_cases h : s._clusterer.absorbed = []
  · rw [get_clustering_result_empty s h]
    rfl
  · rw [get_clustering_result_nonempty s h]
    rfl

open DenStreamWithDBSCAN in
/-- `fit_predict` never changes the configuration read back through the
facade. -/
theorem fit_predict_configOf (s : DenStreamWithDBSCAN) (X : List Point) :
    (s.fit_predict X).2.configOf = s.configOf := by
  have hpf : (s.fit X).1.configOf = s.configOf := partial_fit_configOf X s
  rcases hfit : s.fit X with ⟨s1, err⟩
  have h1 : s1.configOf = s.configOf := by rw [← hpf, hfit]
  cases err with
  | some e =>
      rw [fit_predict, hfit]
      exact h1
  | none =>
      rw [fit_predict, hfit]
      exact (labels_configOf s1).trans h1

/-- Unfolding of `runBatches` on one batch. -/
theorem runBatches_cons (s : DenStreamWithDBSCAN) (B : List Point)
    (rest : List (List Point)) :
    runBatches s (B :: rest) = runBatches (s.partial_fit B).1 rest := rfl

open DenStreamWithDBSCAN in
/-- A whole run over batches of valid points appends all their points, in
order across batches, to the absorbed history, the instance list and the
call history. -/
theorem runBatches_all_valid (batches : List (List Point))
    (s : DenStreamWithDBSCAN)
    (h : ∀ B ∈ batches, ∀ p ∈ B, p.length = s._dimensions) :
    runBatches s batches =
      { s with
          _clusterer :=
            { s._clusterer with
                absorbed := s._clusterer.absorbed ++ batches.flatten },
          _instances := s._instances ++ batches.flatten,
          calls := s.calls ++ (batches.flatten).map EngineCall.train } := by
  induction batches generalizing s with
  | nil => simp [runBatches]
  | cons B rest ih =>
      have hB : ∀ p ∈ B, p.length = s._dimensions :=
        h B (List.mem_cons_self B rest)
      rw [runBatches_cons, partial_fit_all_valid_fst B s hB]
      have hrec :=
        ih ({ s with
              _clusterer :=
                { s._clusterer with absorbed := s._clusterer.absorbed ++ B },
              _instances := s._instances ++ B,
              calls := s.calls ++ B.map EngineCall.train })
          (fun B' hB' p hp => h B' (List.mem_cons_of_mem B hB') p hp)
      rw [hrec]
      simp [List.flatten, List.append_assoc]

/-- A configuration with an invalid `epsilon`. -/
def badCfg : Config := { sampleCfg with epsilon := 0 }

/-- A sample state that has absorbed two valid points. -/
def sampleFitted : DenStreamWithDBSCAN :=
  (sampleEngine.partial_fit [[0, 0], [1, 1]]).1

open DenStreamWithDBSCAN in
/-- C1: if some point of a batch has a length different from the configured
dimensionality, `partial_fit` raises `dimensionMismatch` at that point: the
points before it in the batch are processed, none after it are, and the
micro-cluster store (hence its weight and count) is exactly the one
immediately prior to processing the invalid point. -/
theorem C1_partial_fit_dimension_mismatch (s : DenStreamWithDBSCAN)
    (pre : List Point) (p : Point) (post : List Point)
    (hpre : ∀ q ∈ pre, q.length = s._dimensions)
    (hp : p.length ≠ s._dimensions) :
    s.partial_fit (pre ++ p :: post) =
      ((s.partial_fit pre).1, some MoaError.dimensionMismatch) ∧
    (s.partial_fit (pre ++ p :: post)).1._clusterer =
      (s.partial_fit pre).1._clusterer ∧
    (s.partial_fit (pre ++ p :: post)).1._instances =
      (s.partial_fit pre).1._instances := by
  have h := partial_fit_first_invalid pre p post s hpre hp
  exact ⟨h, by rw [h], by rw [h]⟩

open DenStreamWithDBSCAN in
/-- Witness for C1: a concrete batch whose second point has the wrong
dimensionality. -/
theorem C1_witness :
    sampleEngine.partial_fit ([[0, 0]] ++ [1] :: [[2, 2]]) =
      ((sampleEngine.partial_fit [[0, 0]]).1, some MoaError.dimensionMismatch) ∧
    (sampleEngine.partial_fit ([[0, 0]] ++ [1] :: [[2, 2]])).1._clusterer =
      (sampleEngine.partial_fit [[0, 0]]).1._clusterer ∧
    (sampleEngine.partial_fit ([[0, 0]] ++ [1] :: [[2, 2]])).1._instances =
      (sampleEngine.partial_fit [[0, 0]]).1._instances :=
  C1_partial_fit_dimension_mismatch sampleEngine [[0, 0]] [1] [[2, 2]]
    (by decide) (by decide)

open DenStreamWithDBSCAN in
/-- C2: on a freshly constructed engine, into which zero points have been
absorbed, requesting reclustering — reading `labels_`, or the underlying
`get_clustering_result` — fails with `notInitialized`. -/
theorem C2_fresh_engine_not_initialized (cfg : Config)
    (e : DenStreamWithDBSCAN) (h : mkDenStreamWithDBSCAN cfg = .ok e) :
    (e.get_clustering_result).1 = .error .notInitialized ∧
    (e.labels_).1 = .error .notInitialized := by
  obtain ⟨-, -, habs, -, -⟩ := mk_ok_inv cfg e h
  exact ⟨by rw [get_clustering_result_empty e habs],
         by rw [labels_empty e habs]⟩

open DenStreamWithDBSCAN in
/-- Witness for C2: the fresh sample engine. -/
theorem C2_witness :
    (sampleEngine.get_clustering_result).1 = .error .notInitialized ∧
    (sampleEngine.labels_).1 = .error .notInitialized :=
  C2_fresh_engine_not_initialized sampleCfg sampleEngine mk_sampleEngine

/-- C3: construction with an invalid configuration parameter — here
`epsilon ≤ 0` — fails with `configurationError` at construction time,
producing no engine at all, so before any point is absorbed. -/
theorem C3_invalid_config_rejected (cfg : Config) (h : cfg.epsilon ≤ 0) :
    mkDenStreamWithDBSCAN cfg = .error .configurationError := by
  have he : decide (0 < cfg.epsilon) = false := decide_eq_false (not_lt.mpr h)
  have hnot : cfg.valid = false := by
    rw [Config.valid, he]
    simp
  rw [mkDenStreamWithDBSCAN, if_neg (by rw [hnot]; exact Bool.false_ne_true)]

/-- Witness for C3: a configuration with `epsilon = 0`. -/
theorem C3_witness :
    mkDenStreamWithDBSCAN badCfg = .error .configurationError :=
  C3_invalid_config_rejected badCfg (by decide)

open DenStreamWithDBSCAN in
/-- C4: for every engine state and every batch, `fit` has exactly the effect
of a single `partial_fit` call on that state. -/
theorem C4_fit_is_partial_fit (s : DenStreamWithDBSCAN) (X : List Point) :
    s.fit X = s.partial_fit X := rfl

open DenStreamWithDBSCAN in
/-- C5: `partial_fit` feeds each point of the batch to the fading-window
update engine one at a time, in arrival order — one `train` call per point,
in batch order — and never issues the offline reclustering call. -/
theorem C5_partial_fit_in_order_no_recluster (s : DenStreamWithDBSCAN)
    (X : List Point) (h : ∀ p ∈ X, p.length = s._dimensions) :
    (s.partial_fit X).1.calls = s.calls ++ X.map EngineCall.train ∧
    EngineCall.recluster ∉ X.map EngineCall.train := by
  constructor
  · rw [partial_fit_all_valid X s h]
  · intro hmem
    rcases List.mem_map.mp hmem with ⟨p, -, hEq⟩
    exact EngineCall.noConfusion hEq

open DenStreamWithDBSCAN in
/-- Witness for C5: a concrete two-point batch. -/
theorem C5_witness :
    (sampleEngine.partial_fit [[0, 0], [1, 1]]).1.calls =
      sampleEngine.calls ++ [[(0 : ℚ), 0], [1, 1]].map EngineCall.train ∧
    EngineCall.recluster ∉ [[(0 : ℚ), 0], [1, 1]].map EngineCall.train :=
  C5_partial_fit_in_order_no_recluster sampleEngine [[0, 0], [1, 1]]
    (by decide)

open DenStreamWithDBSCAN in
/-- C6: reading `labels_` (predict) issues the offline reclustering call on
the current state and returns the label mapping for the absorbed points:
`get_clustering_result` maps each point index, in storage order, to its
cluster id, and `labels_` returns those cluster ids. -/
theorem C6_labels_triggers_offline (s : DenStreamWithDBSCAN)
    (h : s._clusterer.absorbed ≠ []) :
    (s.get_clustering_result).1 =
      .ok (classValues s._clusterer s._instances) ∧
    (s.get_clustering_result).2.calls = s.calls ++ [EngineCall.recluster] ∧
    (classValues s._clusterer s._instances).map Prod.fst =
      List.range s._instances.length ∧
    (s.labels_).1 =
      .ok ((classValues s._clusterer s._instances).map Prod.snd) := by
  refine ⟨?_, ?_, (classValues_keys _ _).1, ?_⟩
  · rw [get_clustering_result_nonempty s h]
  · rw [get_clustering_result_nonempty s h]
  · rw [labels_nonempty s h]

open DenStreamWithDBSCAN in
/-- Witness for C6: a state that has absorbed two points. -/
theorem C6_witness :
    (sampleFitted.get_clustering_result).1 =
      .ok (classValues sampleFitted._clusterer sampleFitted._instances) ∧
    (sampleFitted.get_clustering_result).2.calls =
      sampleFitted.calls ++ [EngineCall.recluster] ∧
    (classValues sampleFitted._clusterer sampleFitted._instances).map
        Prod.fst = List.range sampleFitted._instances.length ∧
    (sampleFitted.labels_).1 =
      .ok ((classValues sampleFitted._clusterer sampleFitted._instances).map
        Prod.snd) :=
  C6_labels_triggers_offline sampleFitted (by decide)

open DenStreamWithDBSCAN in
/-- C7: calling predict (reading `labels_`) twice with no intervening
`partial_fit` yields an identical label mapping both times, and likewise for
the underlying `get_clustering_result`. -/
theorem C7_predict_idempotent (s : DenStreamWithDBSCAN) :
    (((s.labels_).2).labels_).1 = (s.labels_).1 ∧
    (((s.get_clustering_result).2).get_clustering_result).1 =
      (s.get_clustering_result).1 := by
  by_cases h : s._clusterer.absorbed = []
  · rw [labels_empty s h, get_clustering_result_empty s h]
    have h' : ({ s with calls := s.calls ++ [EngineCall.recluster] } :
        DenStreamWithDBSCAN)._clusterer.absorbed = [] := h
    rw [labels_empty _ h', get_clustering_result_empty _ h']
    exact ⟨rfl, rfl⟩
  · rw [labels_nonempty s h, get_clustering_result_nonempty s h]
    have h' : ¬ ({ s with calls := s.calls ++ [EngineCall.recluster] } :
        DenStreamWithDBSCAN)._clusterer.absorbed = [] := h
    rw [labels_nonempty _ h', get_clustering_result_nonempty _ h']
    exact ⟨rfl, rfl⟩

open DenStreamWithDBSCAN in
/-- C8: feeding the same ordered point sequence into two engines freshly
constructed from the same configuration yields identical facade states,
identical micro-cluster stores, and identical offline labelings. -/
theorem C8_deterministic (cfg : Config) (X : List Point)
    (e1 e2 : DenStreamWithDBSCAN)
    (h1 : mkDenStreamWithDBSCAN cfg = .ok e1)
    (h2 : mkDenStreamWithDBSCAN cfg = .ok e2) :
    e1.partial_fit X = e2.partial_fit X ∧
    (e1.partial_fit X).1._clusterer = (e2.partial_fit X).1._clusterer ∧
    ((e1.partial_fit X).1.labels_).1 = ((e2.partial_fit X).1.labels_).1 := by
  rw [h1] at h2
  injection h2 with h3
  subst h3
  exact ⟨rfl, rfl, rfl⟩

open DenStreamWithDBSCAN in
/-- Witness for C8: two constructions from the sample configuration. -/
theorem C8_witness :
    sampleEngine.partial_fit [[0, 0]] = sampleEngine.partial_fit [[0, 0]] ∧
    (sampleEngine.partial_fit [[0, 0]]).1._clusterer =
      (sampleEngine.partial_fit [[0, 0]]).1._clusterer ∧
    ((sampleEngine.partial_fit [[0, 0]]).1.labels_).1 =
      ((sampleEngine.partial_fit [[0, 0]]).1.labels_).1 :=
  C8_deterministic sampleCfg [[0, 0]] sampleEngine sampleEngine
    mk_sampleEngine mk_sampleEngine

open DenStreamWithDBSCAN in
/-- C9: all configuration parameters are fixed at construction and unchanged
by every subsequent public operation: read back through the facade (the
eight property getters plus the stored dimensionality field) they equal the
constructor-supplied values before and after any `partial_fit`, `fit`,
`fit_predict` or `labels_` call. -/
theorem C9_config_immutable (cfg : Config) (e : DenStreamWithDBSCAN)
    (h : mkDenStreamWithDBSCAN cfg = .ok e) (X : List Point) :
    e.configOf = cfg ∧
    ((e.partial_fit X).1).configOf = cfg ∧
    ((e.fit X).1).configOf = cfg ∧
    ((e.fit_predict X).2).configOf = cfg ∧
    ((e.labels_).2).configOf = cfg := by
  obtain ⟨he, -, -, -, -⟩ := mk_ok_inv cfg e h
  exact ⟨he, (partial_fit_configOf X e).trans he,
         (partial_fit_configOf X e).trans he,
         (fit_predict_configOf e X).trans he,
         (labels_configOf e).trans he⟩

open DenStreamWithDBSCAN in
/-- Witness for C9: the sample engine and a concrete batch. -/
theorem C9_witness :
    sampleEngine.configOf = sampleCfg ∧
    ((sampleEngine.partial_fit [[0, 0]]).1).configOf = sampleCfg ∧
    ((sampleEngine.fit [[0, 0]]).1).configOf = sampleCfg ∧
    ((sampleEngine.fit_predict [[0, 0]]).2).configOf = sampleCfg ∧
    ((sampleEngine.labels_).2).configOf = sampleCfg :=
  C9_config_immutable sampleCfg sampleEngine mk_sampleEngine [[0, 0]]

open DenStreamWithDBSCAN in
/-- C10: after any sequence of `partial_fit` calls on valid batches from a
fresh engine, the instance list holds exactly one entry per point ever fed,
in arrival order across all calls, and `labels_` returns one label per point
absorbed over the engine's whole lifetime. -/
theorem C10_lifetime_history (cfg : Config) (e : DenStreamWithDBSCAN)
    (hmk : mkDenStreamWithDBSCAN cfg = .ok e)
    (batches : List (List Point))
    (hval : ∀ B ∈ batches, ∀ p ∈ B, p.length = cfg.dimensions)
    (hne : batches.flatten ≠ []) :
    (runBatches e batches)._instances = batches.flatten ∧
    ∃ L, ((runBatches e batches).labels_).1 = .ok L ∧
      L.length = batches.flatten.length := by
  obtain ⟨-, hdim, habs, hinst, -⟩ := mk_ok_inv cfg e hmk
  have hval' : ∀ B ∈ batches, ∀ p ∈ B, p.length = e._dimensions := by
    intro B hB p hp
    rw [hdim]
    exact hval B hB p hp
  have hrun := runBatches_all_valid batches e hval'
  have hinstEq : (runBatches e batches)._instances = batches.flatten := by
    rw [hrun]
    simp [hinst]
  have habs' : (runBatches e batches)._clusterer.absorbed ≠ [] := by
    rw [hrun]
    simpa [habs] using hne
  refine ⟨hinstEq,
    (classValues (runBatches e batches)._clusterer
      (runBatches e batches)._instances).map Prod.snd, ?_, ?_⟩
  · rw [labels_nonempty _ habs']
  · rw [List.length_map, (classValues_keys _ _).2, hinstEq]

open DenStreamWithDBSCAN in
/-- Witness for C10: two concrete batches fed in sequence. -/
theorem C10_witness :
    (runBatches sampleEngine [[[0, 0]], [[1, 1], [2, 2]]])._instances =
      ([[[0, 0]], [[1, 1], [2, 2]]] : List (List Point)).flatten ∧
    ∃ L, ((runBatches sampleEngine
        [[[0, 0]], [[1, 1], [2, 2]]]).labels_).1 = .ok L ∧
      L.length = ([[[0, 0]], [[1, 1], [2, 2]]] :
        List (List Point)).flatten.length :=
  C10_lifetime_history sampleCfg sampleEngine mk_sampleEngine
    [[[0, 0]], [[1, 1], [2, 2]]] (by decide) (by decide)

end Moa
